import Mathlib

/-!
Verification development for the COVID dashboard data pipeline
(Julian-Ployhar/Dashboard-covid-web-data-prediction).

The development shallowly embeds the parts of the repository that the
specification's testable properties talk about:

* the pandas data model: a frame is a header, a list of integer row labels
  (the index) and a list of rows; a cell is missing (NaN/NaT), a datetime64
  value, or a float64 value.  Index labels matter: pandas DataFrame.dropna
  keeps the surviving rows' original labels, a DataFrame freshly built from
  a numpy matrix gets labels 0..n-1, and pd.concat(axis=1) outer-aligns its
  operands on the union of their labels, filling holes with NaN.
* datacleaner.py: DataProcessor.merge_datasets, clean_dataset,
  standardize_features (including the behaviour of sklearn StandardScaler),
  and the step order of process_data / save_processed_data.
* setup_and_run.py: the step order of
  DashboardOrchestrator.process_and_clean_data.
* data_validation_utils.py: DataValidator.validate_covid_cases_file and
  validate_web_metrics_file.
* create_sample_data.py: SampleDataGenerator, with numpy's seeded global
  PRNG modelled as an abstract family of draw streams indexed by the
  position of the stream cursor.
-/

namespace Covid

/-- A single table cell as pandas represents it: missing (NaN/NaT), a
datetime64 value (encoded by its day number), or a float64 value. -/
inductive Cell where
  | na : Cell
  | date : ℤ → Cell
  | num : ℝ → Cell

/-- Whether a cell is missing (pandas isnull). -/
def Cell.isNA : Cell → Bool
  | .na => true
  | _ => false

/-- Numeric reading of a cell, used when a numeric column is fed to the
scaler.  In the pipeline the scaler only ever sees float64 cells (the
feature columns of a frame that dropna has already cleaned), so the
defaults for the other constructors are never exercised there. -/
def Cell.toReal : Cell → ℝ
  | .na => 0
  | .date d => (d : ℝ)
  | .num x => x

/-- Equality test between two join-key cells.  The pipeline always joins on
the date column, which read_csv(parse_dates=["date"]) types as datetime64;
missing keys never compare equal (pandas drops NaN keys from an inner
join). -/
def Cell.keyEq : Cell → Cell → Bool
  | .date a, .date b => a == b
  | _, _ => false

/-- The fresh RangeIndex 0..n-1 pandas attaches to a newly built frame. -/
def rangeIdx (n : ℕ) : List ℤ :=
  (List.range n).map Int.ofNat

/-- A pandas DataFrame: column names, row labels (the index) and rows.
A well-formed frame is rectangular and has as many labels as rows. -/
structure DataFrame where
  header : List String
  index : List ℤ
  rows : List (List Cell)

/-- A pandas Series, as produced by selecting one column of a frame. -/
structure Series where
  name : String
  index : List ℤ
  vals : List Cell

/-- Rectangularity of a frame: one label per row, one cell per column. -/
def DataFrame.WF (df : DataFrame) : Prop :=
  df.index.length = df.rows.length ∧ ∀ r ∈ df.rows, r.length = df.header.length

/-- Cells of the named column, top to bottom. -/
def DataFrame.col (df : DataFrame) (c : String) : List Cell :=
  df.rows.map (fun r => r.getD (df.header.indexOf c) Cell.na)

/-- Column selection df[c] as a Series. -/
def DataFrame.series (df : DataFrame) (c : String) : Series :=
  { name := c, index := df.index, vals := df.col c }

/-- Whether any cell of the frame is missing. -/
def DataFrame.hasNA (df : DataFrame) : Bool :=
  df.rows.any (fun r => r.any Cell.isNA)

/-- The date-column key cell of one row of a frame with header h. -/
def keyCell (h : List String) (r : List Cell) : Cell :=
  r.getD (h.indexOf "date") Cell.na

/-- The multiset of dates carried by the date column of the given rows
(cells of the date column that actually are dates). -/
def dateKeys (h : List String) (rows : List (List Cell)) : List ℤ :=
  rows.filterMap (fun r =>
    match keyCell h r with
    | .date d => some d
    | _ => none)

/-- pd.merge(left, right, on="date", how="inner"): the output columns are
the left frame's columns followed by the right frame's non-key columns; one
output row per key-matching pair of input rows, grouped in left-row order
(pandas preserves the order of the left keys for an inner merge); the
result carries a fresh RangeIndex. -/
def mergeInner (left right : DataFrame) : DataFrame :=
  let rkey := right.header.indexOf "date"
  let outRows := left.rows.flatMap (fun l =>
    (right.rows.filter (fun r =>
        Cell.keyEq (keyCell left.header l) (r.getD rkey Cell.na))).map
      (fun r => l ++ r.eraseIdx rkey))
  { header := left.header ++ right.header.eraseIdx rkey
    index := rangeIdx outRows.length
    rows := outRows }

/-- DataProcessor.merge_datasets (datacleaner.py lines 39-44):
pd.merge(web_traffic, covid_cases, on="date", how="inner"). -/
def merge_datasets (covid_cases web_traffic : DataFrame) : DataFrame :=
  mergeInner web_traffic covid_cases

/-- DataFrame.dropna(): keep the rows with no missing cell.  Surviving rows
keep their original index labels. -/
def DataFrame.dropna (df : DataFrame) : DataFrame :=
  let kept := (df.index.zip df.rows).filter (fun p => !(p.2.any Cell.isNA))
  { header := df.header
    index := kept.map Prod.fst
    rows := kept.map Prod.snd }

/-- DataProcessor.clean_dataset (datacleaner.py lines 46-53):
merged_data.dropna(). -/
def clean_dataset (merged_data : DataFrame) : DataFrame :=
  merged_data.dropna

/-- One row of DataFrame.drop(columns=cs): the cells of the columns that are
kept, in their original order. -/
def dropRow (header cs : List String) (r : List Cell) : List Cell :=
  ((header.zip r).filter (fun p => !(cs.contains p.1))).map Prod.snd

/-- DataFrame.drop(columns=cs): remove the named columns, keeping the other
columns in their original order. -/
def DataFrame.dropCols (df : DataFrame) (cs : List String) : DataFrame :=
  { header := df.header.filter (fun c => !(cs.contains c))
    index := df.index
    rows := df.rows.map (dropRow df.header cs) }

/-- Mean of a list of numbers (numpy mean; for the empty list the real-field
convention 0/0 = 0 stands in for numpy's NaN, a case sklearn rejects before
it can arise). -/
noncomputable def listMean (xs : List ℝ) : ℝ :=
  xs.sum / xs.length

/-- Population variance (numpy var with ddof=0, the convention StandardScaler
fits with): mean squared deviation from the mean. -/
noncomputable def listPopVar (xs : List ℝ) : ℝ :=
  ((xs.map (fun x => (x - listMean xs) ^ 2)).sum) / xs.length

/-- Population standard deviation: square root of the population variance. -/
noncomputable def listPopStd (xs : List ℝ) : ℝ :=
  Real.sqrt (listPopVar xs)

/-- The per-feature scale_ of sklearn's StandardScaler: the square root of
the population variance, except that sklearn's _handle_zeros_in_scale
replaces a zero scale by 1.0, so a constant feature is centred but not
divided by zero. -/
noncomputable def scalerScale (xs : List ℝ) : ℝ :=
  if listPopVar xs = 0 then 1 else Real.sqrt (listPopVar xs)

/-- One feature column after StandardScaler.fit_transform: each value is
centred by the column mean and divided by the column scale. -/
noncomputable def standardizeCol (xs : List ℝ) : List ℝ :=
  xs.map (fun x => (x - listMean xs) / scalerScale xs)

/-- scaler.fit_transform(feature_columns) followed by
pd.DataFrame(standardized_features, columns=feature_columns.columns)
(datacleaner.py lines 58-62): column-wise z-scores of the input frame; the
rebuilt frame carries a fresh RangeIndex 0..n-1, whatever the input frame's
labels were. -/
noncomputable def fitTransformDF (df : DataFrame) : DataFrame :=
  let cols := (List.range df.header.length).map (fun j =>
    standardizeCol (df.rows.map (fun r => (r.getD j Cell.na).toReal)))
  { header := df.header
    index := rangeIdx df.rows.length
    rows := (List.range df.rows.length).map (fun i =>
      cols.map (fun c => Cell.num (c.getD i 0))) }

/-- Value of a series at an index label: the stored value where the label
occurs, NaN where the label is absent (pandas alignment). -/
def seriesAt (idx : List ℤ) (vals : List Cell) (i : ℤ) : Cell :=
  match idx, vals with
  | [], _ => Cell.na
  | _, [] => Cell.na
  | a :: idx, v :: vals => if a = i then v else seriesAt idx vals i

/-- Row of a frame at an index label: the stored row where the label occurs,
an all-NaN row where the label is absent (pandas alignment). -/
def DataFrame.rowAt (df : DataFrame) (i : ℤ) : List Cell :=
  match (df.index.zip df.rows).find? (fun p => p.1 == i) with
  | some p => p.2
  | none => List.replicate df.header.length Cell.na

/-- Order-preserving union of two index label lists, as pd.concat(axis=1)
with the default sort=False combines non-identical indexes: the first
operand's labels, then the labels only the second operand has. -/
def indexUnion (a b : List ℤ) : List ℤ :=
  a ++ b.filter (fun i => !(a.contains i))

/-- pd.concat([s1, mid, s2], axis=1) (datacleaner.py line 66): the operands
are outer-aligned on the union of their index labels, and labels an operand
lacks are filled with NaN.  The output columns are s1, then mid's columns,
then s2. -/
def concat3 (s1 : Series) (mid : DataFrame) (s2 : Series) : DataFrame :=
  let idx := indexUnion s1.index (indexUnion mid.index s2.index)
  { header := s1.name :: (mid.header ++ [s2.name])
    index := idx
    rows := idx.map (fun i =>
      seriesAt s1.index s1.vals i :: (mid.rowAt i ++ [seriesAt s2.index s2.vals i])) }

/-- DataProcessor.standardize_features (datacleaner.py lines 55-67): drop
date and cases, fit-transform the remaining feature columns, rebuild a frame
from the scaled matrix, and concatenate date, scaled features and cases
column-wise. -/
noncomputable def standardize_features (cleaned_data : DataFrame) : DataFrame :=
  let feature_columns := cleaned_data.dropCols ["date", "cases"]
  let standardized_df := fitTransformDF feature_columns
  concat3 (cleaned_data.series "date") standardized_df (cleaned_data.series "cases")

/-- The frame DataProcessor.process_data hands to the final persist step:
merge, drop-missing, standardize. -/
noncomputable def process_frames (covid_cases web_traffic : DataFrame) : DataFrame :=
  standardize_features (clean_dataset (merge_datasets covid_cases web_traffic))

/-! ### Step order and failure behaviour of the two pipeline drivers -/

/-- The successive steps of a cleaning-pipeline run. -/
inductive PipeStep where
  | load | mergeStep | dropMissing | standardize | saveRaw | saveFinal
deriving DecidableEq, BEq

/-- Step order of DataProcessor.process_data (datacleaner.py lines 80-109):
both file writes happen inside save_processed_data, which runs only after
standardize_features has returned; the raw backup is written first, the
final dataset second. -/
def datacleanerSteps : List PipeStep :=
  [.load, .mergeStep, .dropMissing, .standardize, .saveRaw, .saveFinal]

/-- Step order of DashboardOrchestrator.process_and_clean_data
(setup_and_run.py lines 94-117): the raw backup is written right after the
in-place dropna and before standardization. -/
def orchestratorSteps : List PipeStep :=
  [.load, .mergeStep, .dropMissing, .saveRaw, .standardize, .saveFinal]

/-- The file a step writes, if any. -/
def stepWrites : PipeStep → Option String
  | .saveRaw => some "merged_data_raw.csv"
  | .saveFinal => some "cleaned_merged_data.csv"
  | _ => none

/-- Run a pipeline whose steps may raise, under a failure oracle: execution
stops at the first step that raises (the surrounding except-handler aborts
the whole run), and a file write is durable exactly when its step completed
before the abort.  Returns the committed writes in order and whether the run
finished normally. -/
def runPipeline : List PipeStep → (PipeStep → Bool) → List String × Bool
  | [], _ => ([], true)
  | s :: rest, fails =>
    if fails s then ([], false)
    else
      let r := runPipeline rest fails
      ((stepWrites s).toList ++ r.1, r.2)

/-! ### Data validator (data_validation_utils.py) -/

/-- What pd.read_csv delivers about a parsed file, as far as the validator
inspects it: the column names, the row count, which columns have a numeric
dtype, and whether pd.to_datetime accepts the date column. -/
structure CsvData where
  columns : List String
  nrows : ℕ
  numericTyped : List String
  dateParseOk : Bool

/-- The Python exceptions the validator can meet. -/
inductive PyError where
  | fileNotFound | parseFailure | keyLookup | typeFailure
deriving DecidableEq, BEq

/-- The input-file-validation settings block of the config. -/
structure CasesSettings where
  requiredColumns : List String
  minRowCount : ℕ

/-- The web-metrics-validation settings block of the config. -/
structure WebSettings where
  requiredColumns : List String
  numericColumns : List String
  minRowCount : ℕ

/-- The loaded validation configuration.  A block a user-supplied config
file lacks is none; looking it up then raises KeyError inside the
validator body. -/
structure ValidatorConfig where
  inputFileValidation : Option CasesSettings
  webMetricsValidation : Option WebSettings

/-- DataValidator._get_default_config (data_validation_utils.py lines
26-41). -/
def defaultConfig : ValidatorConfig :=
  { inputFileValidation := some
      { requiredColumns := ["date", "cases"], minRowCount := 10 }
    webMetricsValidation := some
      { requiredColumns := ["date", "page_views", "unique_visitors"]
        numericColumns := ["page_views", "unique_visitors", "search_queries"]
        minRowCount := 10 } }

/-- Dictionary lookup of a settings block: raises KeyError when the block is
absent. -/
def getBlock {α : Type} : Option α → Except PyError α
  | some s => .ok s
  | none => .error .keyLookup

/-- Body of DataValidator.validate_covid_cases_file (data_validation_utils.py
lines 43-74), before the enclosing except-handler: read the file, look up the
settings, then check required columns, the minimum row count, and that the
date column parses.  The date check models the inner try: both a missing
date column (covid_data['date'] raises KeyError) and an unparseable one
produce the early false return. -/
def validate_covid_cases_body (cfg : ValidatorConfig)
    (readResult : Except PyError CsvData) : Except PyError Bool :=
  match readResult with
  | .error e => .error e
  | .ok covid_data =>
    match getBlock cfg.inputFileValidation with
    | .error e => .error e
    | .ok settings =>
      if settings.requiredColumns.any (fun c => !(covid_data.columns.contains c)) then
        .ok false
      else if covid_data.nrows < settings.minRowCount then
        .ok false
      else if !(covid_data.columns.contains "date") || !covid_data.dateParseOk then
        .ok false
      else
        .ok true

/-- Body of DataValidator.validate_web_metrics_file (data_validation_utils.py
lines 76-108), before the enclosing except-handler: read the file, look up
the settings, then check required columns, the minimum row count, and that
every configured numeric column that is present in the file has a numeric
dtype; a configured numeric column absent from the file is skipped. -/
def validate_web_metrics_body (cfg : ValidatorConfig)
    (readResult : Except PyError CsvData) : Except PyError Bool :=
  match readResult with
  | .error e => .error e
  | .ok web_data =>
    match getBlock cfg.webMetricsValidation with
    | .error e => .error e
    | .ok settings =>
      if settings.requiredColumns.any (fun c => !(web_data.columns.contains c)) then
        .ok false
      else if web_data.nrows < settings.minRowCount then
        .ok false
      else if settings.numericColumns.any (fun c =>
          web_data.columns.contains c && !(web_data.numericTyped.contains c)) then
        .ok false
      else
        .ok true

/-- The blanket except-handler both validators end with: every Exception the
body raises is printed and turned into a false return. -/
def catchAll : Except PyError Bool → Bool
  | .ok b => b
  | .error _ => false

/-- DataValidator.validate_covid_cases_file: its body behind the blanket
except-handler. -/
def validate_covid_cases_file (cfg : ValidatorConfig)
    (readResult : Except PyError CsvData) : Bool :=
  catchAll (validate_covid_cases_body cfg readResult)

/-- DataValidator.validate_web_metrics_file: its body behind the blanket
except-handler. -/
def validate_web_metrics_file (cfg : ValidatorConfig)
    (readResult : Except PyError CsvData) : Bool :=
  catchAll (validate_web_metrics_body cfg readResult)

/-- The expected failure modes of the cases-file validator, written from the
specification's words: the file cannot be parsed, a required column is
absent, the row count is below the configured minimum, or the date column
cannot be parsed as dates. -/
def specCasesFails (s : CasesSettings) (readResult : Except PyError CsvData) : Bool :=
  match readResult with
  | .error _ => true
  | .ok d =>
    s.requiredColumns.any (fun c => !(d.columns.contains c))
    || d.nrows < s.minRowCount
    || !(d.columns.contains "date") || !d.dateParseOk

/-- The expected failure modes of the web-metrics validator, written from
the specification's words: the file cannot be parsed, a required column is
absent, the row count is below the configured minimum, or a designated
numeric column fails the numeric-type check. -/
def specWebFails (s : WebSettings) (readResult : Except PyError CsvData) : Bool :=
  match readResult with
  | .error _ => true
  | .ok d =>
    s.requiredColumns.any (fun c => !(d.columns.contains c))
    || d.nrows < s.minRowCount
    || s.numericColumns.any (fun c =>
        d.columns.contains c && !(d.numericTyped.contains c))

/-! ### Sample data generator (create_sample_data.py) -/

/-- Abstract model of numpy's seeded global PRNG.  After np.random.seed the
process holds a stream of variates; a vectorized draw of length n started at
stream position p fills entry i from a function of the distribution's
parameters, p and i, and advances the cursor to p + n.  Two draws of the
same distribution started at different cursor positions are unrelated. -/
structure NPRandom where
  normalVec : ℝ → ℝ → ℕ → ℕ → ℝ
  poissonVec : ℕ → ℕ → ℕ → ℝ

/-- numpy linspace(a, b, n) at entry i (n equally spaced points from a to b
inclusive; a single point gives a). -/
noncomputable def linspace (a b : ℝ) (n i : ℕ) : ℝ :=
  if n ≤ 1 then a else a + (b - a) * i / ((n : ℝ) - 1)

/-- One entry of SampleDataGenerator.create_covid_cases_data
(create_sample_data.py lines 18-30), drawing its noise from stream position
pos + i: base 50, linear trend 0..100, sinusoidal seasonality of period 30
and amplitude 20, normal(0, 15) noise, clamped at 0 and truncated to int
(nonnegative, so truncation is the floor). -/
noncomputable def caseCount (rng : NPRandom) (pos n i : ℕ) : ℤ :=
  Int.floor (max 0 (50 + linspace 0 100 n i
    + 20 * Real.sin (2 * Real.pi * i / 30)
    + rng.normalVec 0 15 pos i))

/-- SampleDataGenerator.create_covid_cases_data: the case series over n
dates, consuming n variates from position pos. -/
noncomputable def create_covid_cases_data (rng : NPRandom) (pos n : ℕ) :
    List ℤ × ℕ :=
  ((List.range n).map (caseCount rng pos n), pos + n)

/-- The five web-metric series of one web_metrics.csv. -/
structure WebMetrics where
  page_views : List ℝ
  unique_visitors : List ℝ
  search_queries : List ℝ
  covid_symptom_searches : List ℝ
  appointment_requests : List ℝ

/-- SampleDataGenerator.create_web_traffic_data (create_sample_data.py lines
32-44): it first calls create_covid_cases_data again — a fresh case series
drawn from the current cursor position, not the caller's series — scales it
by 0.1 into case_influence, then draws the five Poisson metric bases in
dict order, each consuming n variates. -/
noncomputable def create_web_traffic_data (rng : NPRandom) (pos n : ℕ) :
    WebMetrics × ℕ :=
  let influence : ℕ → ℝ := fun i =>
    (((create_covid_cases_data rng pos n).1.getD i 0 : ℤ) : ℝ) * 0.1
  ({ page_views := (List.range n).map (fun i =>
       rng.poissonVec 1000 (pos + n) i + 500 + influence i)
     unique_visitors := (List.range n).map (fun i =>
       rng.poissonVec 800 (pos + 2 * n) i + 300 + influence i * 0.8)
     search_queries := (List.range n).map (fun i =>
       rng.poissonVec 200 (pos + 3 * n) i + 100 + influence i * 0.5)
     covid_symptom_searches := (List.range n).map (fun i =>
       rng.poissonVec 50 (pos + 4 * n) i + 20 + influence i * 0.3)
     appointment_requests := (List.range n).map (fun i =>
       rng.poissonVec 30 (pos + 5 * n) i + 10 + influence i * 0.2) },
   pos + 6 * n)

/-- SampleDataGenerator.generate_all_sample_data (create_sample_data.py
lines 56-70): the persisted case series is drawn first, from cursor position
0; create_web_traffic_data then runs from the advanced cursor. -/
noncomputable def generate_all_sample_data (rng : NPRandom) (n : ℕ) :
    List ℤ × WebMetrics :=
  let c := create_covid_cases_data rng 0 n
  let w := create_web_traffic_data rng c.2 n
  (c.1, w.1)

/-- One run of the create_sample_data.py script: constructing
SampleDataGenerator executes np.random.seed(42), resetting the global stream
cursor to 0 whatever its ambient position was; generate_all_sample_data then
produces the two files.  The family argument maps a seed to the variate
streams it determines; the ambient argument is the process's cursor position
before the constructor runs. -/
noncomputable def runSampleScript (family : ℕ → NPRandom) (n ambient : ℕ) :
    List ℤ × WebMetrics :=
  let _ := ambient
  generate_all_sample_data (family 42) n

/-- The inline sample-data generator of
DashboardOrchestrator.create_sample_datasets (setup_and_run.py lines 52-62):
there case_influence is computed from the very case_counts array that is
persisted to cases.csv, and the Poisson draws follow the single
create_covid_cases draw. -/
noncomputable def orchestrator_create_sample_datasets (rng : NPRandom) (n : ℕ) :
    List ℤ × WebMetrics :=
  let cases := (create_covid_cases_data rng 0 n).1
  let influence : ℕ → ℝ := fun i => ((cases.getD i 0 : ℤ) : ℝ) * 0.1
  (cases,
   { page_views := (List.range n).map (fun i =>
       rng.poissonVec 1000 n i + 500 + influence i)
     unique_visitors := (List.range n).map (fun i =>
       rng.poissonVec 800 (2 * n) i + 300 + influence i * 0.8)
     search_queries := (List.range n).map (fun i =>
       rng.poissonVec 200 (3 * n) i + 100 + influence i * 0.5)
     covid_symptom_searches := (List.range n).map (fun i =>
       rng.poissonVec 50 (4 * n) i + 20 + influence i * 0.3)
     appointment_requests := (List.range n).map (fun i =>
       rng.poissonVec 30 (5 * n) i + 10 + influence i * 0.2) })

/-! ### Concrete validator inputs used by the theorems -/

/-- A perfectly healthy cases.csv as the validator sees it. -/
def goodCasesCsv : CsvData :=
  { columns := ["date", "cases"], nrows := 20
    numericTyped := ["cases"], dateParseOk := true }

/-- A healthy web_metrics.csv that simply lacks the optional
search_queries column. -/
def goodWebCsv : CsvData :=
  { columns := ["date", "page_views", "unique_visitors"], nrows := 15
    numericTyped := ["page_views", "unique_visitors"], dateParseOk := true }

/-- A user-supplied config file that parsed but lacks both settings blocks;
looking either block up raises KeyError inside the validator body. -/
def emptyConfig : ValidatorConfig :=
  { inputFileValidation := none, webMetricsValidation := none }

/-! ### Concrete pipeline inputs used by the theorems -/

/-- A two-day web_metrics.csv. -/
def webEx : DataFrame :=
  { header := ["date", "page_views"], index := [0, 1]
    rows := [[Cell.date 0, Cell.num 1], [Cell.date 1, Cell.num 2]] }

/-- A cases.csv whose first day has a missing case count, so the cleaning
step drops the merged row with label 0 and the surviving row keeps label 1. -/
def casesEx : DataFrame :=
  { header := ["date", "cases"], index := [0, 1]
    rows := [[Cell.date 0, Cell.na], [Cell.date 1, Cell.num 5]] }

/-- A cleaned two-day table whose single feature column page_views is
constant, hence has zero variance. -/
def constEx : DataFrame :=
  { header := ["date", "page_views", "cases"], index := [0, 1]
    rows := [[Cell.date 0, Cell.num 7, Cell.num 3],
             [Cell.date 1, Cell.num 7, Cell.num 4]] }

/-- A cleaned two-day table with a non-constant feature column. -/
def varEx : DataFrame :=
  { header := ["date", "page_views", "cases"], index := [0, 1]
    rows := [[Cell.date 0, Cell.num 1, Cell.num 3],
             [Cell.date 1, Cell.num 3, Cell.num 4]] }

/-- A three-day web_metrics.csv covering dates 2, 3 and 4. -/
def webOverlapEx : DataFrame :=
  { header := ["date", "page_views"], index := [0, 1, 2]
    rows := [[Cell.date 2, Cell.num 10], [Cell.date 3, Cell.num 11],
             [Cell.date 4, Cell.num 12]] }

/-- A three-day cases.csv covering dates 0, 1 and 2, so it overlaps
webOverlapEx only on date 2. -/
def casesOverlapEx : DataFrame :=
  { header := ["date", "cases"], index := [0, 1, 2]
    rows := [[Cell.date 0, Cell.num 1], [Cell.date 1, Cell.num 2],
             [Cell.date 2, Cell.num 3]] }

/-- A variate-stream instance on which draws started at cursor position 0
differ from draws started later: the normal noise is 0 at position 0 and
100 at every later position, and every Poisson draw is 0. -/
def cexRng : NPRandom :=
  { normalVec := fun _ _ p _ => if p = 0 then 0 else 100
    poissonVec := fun _ _ _ => 0 }

/-- A position-invariant variate-stream instance: every normal draw is 3
and every Poisson draw is 2, wherever the cursor stands. -/
def constRng : NPRandom :=
  { normalVec := fun _ _ _ _ => 3
    poissonVec := fun _ _ _ => 2 }

/-! ### Theorems -/

/-- Reading an entry of a table built over List.range. -/
theorem getD_map_range {α : Type} (f : ℕ → α) (d : α) {n i : ℕ} (h : i < n) :
    ((List.range n).map f).getD i d = f i := by
  rw [List.getD_eq_getElem?_getD, List.getElem?_map, List.getElem?_range h]
  rfl

/-- C5, counterexample.  In DataProcessor.process_data (datacleaner.py),
both file writes run only after standardize_features: a run that aborts
during standardization commits nothing, so the raw-merge backup is not yet
durable, contrary to the claim that it is written before the
standardization step. -/
theorem datacleaner_backup_not_durable_on_standardize_abort :
    runPipeline datacleanerSteps (fun s => s == PipeStep.standardize) = ([], false)
    ∧ ¬ "merged_data_raw.csv" ∈
        (runPipeline datacleanerSteps (fun s => s == PipeStep.standardize)).1 := by
  constructor
  · rfl
  · decide

/-- C5, amended.  Only the orchestrator pipeline
(DashboardOrchestrator.process_and_clean_data) writes merged_data_raw.csv
before standardization: there, a run in which every step up to and
including the backup write succeeds and which then aborts during
standardization or during the final write leaves exactly the raw backup
committed.  In DataProcessor.process_data both writes happen after
standardization (raw first), so a run that aborts during standardization
commits nothing. -/
theorem pipeline_backup_write_order (f : PipeStep → Bool)
    (hl : f .load = false) (hm : f .mergeStep = false)
    (hd : f .dropMissing = false) :
    (f .saveRaw = false →
      (f .standardize = true ∨ (f .standardize = false ∧ f .saveFinal = true)) →
      (runPipeline orchestratorSteps f).1 = ["merged_data_raw.csv"])
    ∧ (f .standardize = true → (runPipeline datacleanerSteps f).1 = []) := by
  constructor
  · intro hr habort
    rcases habort with hst | hstfin
    · simp [runPipeline, orchestratorSteps, stepWrites, hl, hm, hd, hr, hst]
    · simp [runPipeline, orchestratorSteps, stepWrites, hl, hm, hd, hr,
        hstfin.1, hstfin.2]
  · intro hst
    simp [runPipeline, datacleanerSteps, stepWrites, hl, hm, hd, hst]

/-- C5, witness for the amended theorem at the oracle that fails exactly the
standardization step. -/
theorem pipeline_backup_write_order_witness :
    (runPipeline orchestratorSteps (fun s => s == PipeStep.standardize)).1
        = ["merged_data_raw.csv"]
    ∧ (runPipeline datacleanerSteps (fun s => s == PipeStep.standardize)).1 = [] :=
  ⟨(pipeline_backup_write_order (fun s => s == PipeStep.standardize)
      (by decide) (by decide) (by decide)).1 (by decide) (Or.inl (by decide)),
   (pipeline_backup_write_order (fun s => s == PipeStep.standardize)
      (by decide) (by decide) (by decide)).2 (by decide)⟩

/-- C9.  A full run of create_sample_data.py is a pure function of the
variate-stream family fixed by the seed and of the date range: the
constructor re-seeds the global PRNG, so the output does not depend on the
ambient cursor position the process had before the run, and two runs with
the same seed and date range produce identical cases and web-metrics
tables (hence byte-identical CSV text, the writer being deterministic). -/
theorem sample_generator_deterministic (family : ℕ → NPRandom) (n p q : ℕ) :
    runSampleScript family n p = runSampleScript family n q := rfl

/-- C6, counterexample.  A config file that parsed but lacks the settings
block is not one of the claim's expected failure modes, yet the validator
returns false for a perfectly healthy file instead of letting the KeyError
propagate: the blanket except-handler swallows unexpected failures too. -/
theorem validator_swallows_unexpected_failure :
    validate_covid_cases_body emptyConfig (.ok goodCasesCsv) = .error .keyLookup
    ∧ validate_covid_cases_file emptyConfig (.ok goodCasesCsv) = false
    ∧ specCasesFails { requiredColumns := ["date", "cases"], minRowCount := 10 }
        (.ok goodCasesCsv) = false :=
  ⟨rfl, rfl, rfl⟩

/-- C6, amended.  With a well-formed configuration (both settings blocks
present), each validator returns true exactly when none of its expected
failure modes holds — unparseable file, missing required column, too few
rows, unparseable date column (cases validator), non-numeric designated
column (web validator) — and, the body being wrapped in a blanket
except-handler, no failure of any kind propagates: every failure, expected
or not, becomes a false return. -/
theorem validator_false_iff_expected_failure (cfg : ValidatorConfig)
    (s : CasesSettings) (w : WebSettings)
    (hs : cfg.inputFileValidation = some s)
    (hw : cfg.webMetricsValidation = some w)
    (r r2 : Except PyError CsvData) :
    (validate_covid_cases_file cfg r = true ↔ specCasesFails s r = false)
    ∧ (validate_web_metrics_file cfg r2 = true ↔ specWebFails w r2 = false) := by
  constructor
  · cases r with
    | error e =>
        simp [validate_covid_cases_file, validate_covid_cases_body, catchAll,
          specCasesFails]
    | ok d =>
        simp only [validate_covid_cases_file, validate_covid_cases_body,
          catchAll, specCasesFails, hs, getBlock]
        by_cases h1 : s.requiredColumns.any (fun c => !(d.columns.contains c)) = true
        · simp only [if_pos h1, h1]
          simp
        · by_cases h2 : d.nrows < s.minRowCount
          · simp only [if_neg h1, if_pos h2, eq_false_of_ne_true h1, h2]
            simp
          · by_cases h3 : (!(d.columns.contains "date") || !d.dateParseOk) = true
            · simp only [if_neg h1, if_neg h2, if_pos h3,
                eq_false_of_ne_true h1, h3]
              simp [h2]
              simp at h3
              tauto
            · simp only [if_neg h1, if_neg h2, if_neg h3,
                eq_false_of_ne_true h1, eq_false_of_ne_true h3]
              simp [h2]
              simp at h3
              tauto
  · cases r2 with
    | error e =>
        simp [validate_web_metrics_file, validate_web_metrics_body, catchAll,
          specWebFails]
    | ok d =>
        simp only [validate_web_metrics_file, validate_web_metrics_body,
          catchAll, specWebFails, hw, getBlock]
        by_cases h1 : w.requiredColumns.any (fun c => !(d.columns.contains c)) = true
        · simp only [if_pos h1, h1]
          simp
        · by_cases h2 : d.nrows < w.minRowCount
          · simp only [if_neg h1, if_pos h2, eq_false_of_ne_true h1, h2]
            simp
          · by_cases h3 : w.numericColumns.any (fun c =>
                d.columns.contains c && !(d.numericTyped.contains c)) = true
            · simp only [if_neg h1, if_neg h2, if_pos h3,
                eq_false_of_ne_true h1, h3]
              simp [h2]
            · simp only [if_neg h1, if_neg h2, if_neg h3,
                eq_false_of_ne_true h1, eq_false_of_ne_true h3]
              simp [h2]

/-- C6, witness for the amended theorem at the built-in default
configuration and two healthy files. -/
theorem validator_false_iff_expected_failure_witness :
    (validate_covid_cases_file defaultConfig (.ok goodCasesCsv) = true
      ↔ specCasesFails { requiredColumns := ["date", "cases"], minRowCount := 10 }
          (.ok goodCasesCsv) = false)
    ∧ (validate_web_metrics_file defaultConfig (.ok goodWebCsv) = true
      ↔ specWebFails
          { requiredColumns := ["date", "page_views", "unique_visitors"]
            numericColumns := ["page_views", "unique_visitors", "search_queries"]
            minRowCount := 10 }
          (.ok goodWebCsv) = false) :=
  validator_false_iff_expected_failure defaultConfig _ _ rfl rfl
    (.ok goodCasesCsv) (.ok goodWebCsv)

/-- C10.  The web-metrics validator checks the numeric dtype only of
configured numeric columns that the file actually has: a column listed in
numeric-columns but absent from the dataset is skipped and does not by
itself fail validation, as long as the required columns are present, the
row count suffices, and every present designated column is numeric. -/
theorem web_validator_skips_absent_numeric_columns (cfg : ValidatorConfig)
    (w : WebSettings) (d : CsvData) (c : String)
    (hw : cfg.webMetricsValidation = some w)
    (hc : c ∈ w.numericColumns) (habs : ¬ c ∈ d.columns)
    (hreq : ∀ rc ∈ w.requiredColumns, rc ∈ d.columns)
    (hrows : w.minRowCount ≤ d.nrows)
    (hnum : ∀ nc ∈ w.numericColumns, nc ∈ d.columns → nc ∈ d.numericTyped) :
    validate_web_metrics_file cfg (.ok d) = true := by
  simp only [validate_web_metrics_file, validate_web_metrics_body, catchAll,
    hw, getBlock]
  have h1p : ¬ ∃ x ∈ w.requiredColumns, x ∉ d.columns := by
    rintro ⟨x, hx, hnx⟩
    exact hnx (hreq x hx)
  have h2 : ¬ d.nrows < w.minRowCount := not_lt.mpr hrows
  have h3p : ¬ ∃ x ∈ w.numericColumns, x ∈ d.columns ∧ x ∉ d.numericTyped := by
    rintro ⟨x, hx, hmem, hnt⟩
    exact hnt (hnum x hx hmem)
  simp [h1p, h2, h3p]

/-- C10, witness: the built-in default config lists search_queries as a
numeric column but not as a required one, and a file without it validates. -/
theorem web_validator_skips_absent_numeric_columns_witness :
    validate_web_metrics_file defaultConfig (.ok goodWebCsv) = true :=
  web_validator_skips_absent_numeric_columns defaultConfig _ goodWebCsv
    "search_queries" rfl (by decide) (by decide)
    (by decide) (by decide) (by decide)

/-- C1, code bug.  The drop-missing step removes every NaN row, yet the
table the pipeline hands to the final persist step contains missing cells
again: dropna keeps the surviving rows' original labels, the frame rebuilt
from the scaled matrix carries fresh labels 0..n-1, and pd.concat(axis=1)
aligns the two on those labels, filling the mismatches with NaN.  On this
input the cleaned table is NaN-free but the final standardized table is
not. -/
theorem cleaning_pipeline_reintroduces_missing_values :
    (clean_dataset (merge_datasets casesEx webEx)).hasNA = false
    ∧ (process_frames casesEx webEx).hasNA = true :=
  ⟨rfl, rfl⟩

/-- C4, counterexample.  On the same dropped-row input, the cases column of
the standardized output is not the cases column of the cleaned input passed
through verbatim: index alignment stretches the output to two rows (one of
them NaN) while the cleaned input has one. -/
theorem standardize_cases_not_verbatim :
    (standardize_features (clean_dataset (merge_datasets casesEx webEx))).col "cases"
      ≠ (clean_dataset (merge_datasets casesEx webEx)).col "cases" := by
  intro h
  have hlen := congrArg List.length h
  rw [show ((standardize_features (clean_dataset
        (merge_datasets casesEx webEx))).col "cases").length = 2 from rfl,
      show ((clean_dataset (merge_datasets casesEx webEx)).col "cases").length = 1
        from rfl] at hlen
  omega

/-- Mean of a constant list. -/
theorem listMean_replicate (n : ℕ) (v : ℝ) (h : n ≠ 0) :
    listMean (List.replicate n v) = v := by
  rw [listMean, List.sum_replicate, List.length_replicate, nsmul_eq_mul,
    mul_comm, mul_div_assoc, div_self (Nat.cast_ne_zero.mpr h), mul_one]

/-- Population variance of a constant list. -/
theorem listPopVar_replicate (n : ℕ) (v : ℝ) (h : n ≠ 0) :
    listPopVar (List.replicate n v) = 0 := by
  rw [listPopVar, listMean_replicate n v h, List.map_replicate]
  simp

/-- C7, amended.  The repository source indeed contains no zero-variance
guard of its own, but the scaler it delegates to does: sklearn replaces a
zero scale by 1, so a constant feature column is centred to the all-zero
column — the scaling is well defined, and no division by zero, NaN or
infinity arises. -/
theorem constant_feature_column_standardizes_to_zero (xs : List ℝ) (v : ℝ)
    (hne : xs ≠ []) (hconst : ∀ x ∈ xs, x = v) :
    scalerScale xs = 1 ∧ standardizeCol xs = List.replicate xs.length 0 := by
  have hrep : xs = List.replicate xs.length v := List.eq_replicate_of_mem hconst
  have hn : xs.length ≠ 0 := by
    simpa using hne
  have hvar : listPopVar xs = 0 := by
    rw [hrep]
    exact listPopVar_replicate xs.length v hn
  have hmean : listMean xs = v := by
    rw [hrep]
    exact listMean_replicate xs.length v hn
  have hscale : scalerScale xs = 1 := by
    rw [scalerScale, if_pos hvar]
  refine ⟨hscale, ?_⟩
  rw [standardizeCol, hscale, hmean]
  nth_rewrite 1 [hrep]
  rw [List.map_replicate]
  simp

/-- C7, witness for the amended theorem at the concrete constant column of
constEx. -/
theorem constant_feature_column_standardizes_to_zero_witness :
    scalerScale [(7 : ℝ), 7] = 1
    ∧ standardizeCol [(7 : ℝ), 7] = List.replicate ([(7 : ℝ), 7]).length 0 :=
  constant_feature_column_standardizes_to_zero [(7 : ℝ), 7] 7 (by simp)
    (by
      intro x hx
      simpa using hx)

/-- C7, counterexample.  On the pipeline input constEx, whose page_views
column is constant, the claimed division by zero does not happen: the scale
applied to the zero-variance column is 1, not 0, and the standardized
output column is the well-defined all-zero column, with no missing cell. -/
theorem zero_variance_column_not_division_by_zero :
    scalerScale (((constEx.dropCols ["date", "cases"]).col "page_views").map Cell.toReal) = 1
    ∧ scalerScale (((constEx.dropCols ["date", "cases"]).col "page_views").map Cell.toReal) ≠ 0
    ∧ (standardize_features constEx).col "page_views" = [Cell.num 0, Cell.num 0] := by
  have hxs : ((constEx.dropCols ["date", "cases"]).col "page_views").map Cell.toReal
      = [(7 : ℝ), 7] := rfl
  have hvar : listPopVar [(7 : ℝ), 7] = 0 := by
    norm_num [listPopVar, listMean]
  have hscale : scalerScale [(7 : ℝ), 7] = 1 := by
    rw [scalerScale, if_pos hvar]
  have hmean : listMean [(7 : ℝ), 7] = 7 := by
    norm_num [listMean]
  refine ⟨by rw [hxs, hscale], by rw [hxs, hscale]; norm_num, ?_⟩
  have hcol : (standardize_features constEx).col "page_views"
      = [Cell.num ((7 - listMean [(7 : ℝ), 7]) / scalerScale [(7 : ℝ), 7]),
         Cell.num ((7 - listMean [(7 : ℝ), 7]) / scalerScale [(7 : ℝ), 7])] := rfl
  rw [hcol, hmean, hscale]
  norm_num

/-- C8, counterexample.  create_web_traffic_data regenerates the case
series by calling create_covid_cases_data again from the advanced stream
cursor, so on cexRng with a one-day range the persisted case series is
[50] (noise 0 at position 0) while the correlation term uses the fresh
series value 150 (noise 100 at position 1): page_views is 515, whereas the
claimed formula — Poisson base 0 plus offset 500 plus 0.1 times the
persisted 50 — gives 505. -/
theorem web_metrics_not_correlated_to_persisted_series :
    (generate_all_sample_data cexRng 1).1 = [50]
    ∧ (generate_all_sample_data cexRng 1).2.page_views = [(515 : ℝ)]
    ∧ cexRng.poissonVec 1000 2 0 + 500
        + (((generate_all_sample_data cexRng 1).1.getD 0 0 : ℤ) : ℝ) * 0.1
      ≠ (515 : ℝ) := by
  have h1 : (generate_all_sample_data cexRng 1).1 = [50] := by
    simp [generate_all_sample_data, create_covid_cases_data, List.range_succ]
    norm_num [caseCount, cexRng, linspace]
  refine ⟨h1, ?_, ?_⟩
  · simp [generate_all_sample_data, create_covid_cases_data,
      create_web_traffic_data, List.range_succ]
    norm_num [caseCount, cexRng, linspace]
  · rw [h1]
    norm_num [cexRng]

/-- C8, amended.  Each web-metric value is a Poisson base plus a fixed
offset plus a fixed fraction of the same day's value of a freshly
regenerated case series, drawn by a second create_covid_cases_data call
from the advanced cursor position n — not of the persisted series drawn
from position 0.  The two agree (and the claim as stated holds) exactly
when the noise stream is insensitive to the cursor position, and in the
orchestrator's inline generator, which reuses the persisted case_counts
array. -/
theorem web_metric_correlation_uses_fresh_series (rng : NPRandom) (n : ℕ) :
    ((generate_all_sample_data rng n).2.page_views = (List.range n).map (fun i =>
        rng.poissonVec 1000 (2 * n) i + 500 + ((caseCount rng n n i : ℤ) : ℝ) * 0.1))
    ∧ ((∀ m s p q i, rng.normalVec m s p i = rng.normalVec m s q i) →
      (generate_all_sample_data rng n).2.page_views = (List.range n).map (fun i =>
        rng.poissonVec 1000 (2 * n) i + 500
          + (((generate_all_sample_data rng n).1.getD i 0 : ℤ) : ℝ) * 0.1))
    ∧ ((orchestrator_create_sample_datasets rng n).2.page_views
        = (List.range n).map (fun i =>
          rng.poissonVec 1000 n i + 500
            + (((orchestrator_create_sample_datasets rng n).1.getD i 0 : ℤ) : ℝ) * 0.1)) := by
  have hfresh : (generate_all_sample_data rng n).2.page_views
      = (List.range n).map (fun i =>
        rng.poissonVec 1000 (2 * n) i + 500 + ((caseCount rng n n i : ℤ) : ℝ) * 0.1) := by
    simp only [generate_all_sample_data, create_covid_cases_data,
      create_web_traffic_data, zero_add]
    refine List.map_congr_left ?_
    intro i hi
    rw [List.mem_range] at hi
    rw [getD_map_range _ _ hi, two_mul]
  refine ⟨hfresh, ?_, ?_⟩
  · intro hinv
    rw [hfresh]
    refine List.map_congr_left ?_
    intro i hi
    rw [List.mem_range] at hi
    simp only [generate_all_sample_data, create_covid_cases_data]
    rw [getD_map_range _ _ hi]
    have : caseCount rng n n i = caseCount rng 0 n i := by
      simp only [caseCount, hinv 0 15 n 0 i]
    rw [this]
  · simp only [orchestrator_create_sample_datasets, create_covid_cases_data]

/-- C8, witness for the amended theorem: on the position-invariant stream
constRng with a one-day range, the regenerated and the persisted series
agree and the claimed formula holds. -/
theorem web_metric_correlation_uses_fresh_series_witness :
    (generate_all_sample_data constRng 1).2.page_views = (List.range 1).map (fun i =>
      constRng.poissonVec 1000 (2 * 1) i + 500
        + (((generate_all_sample_data constRng 1).1.getD i 0 : ℤ) : ℝ) * 0.1) :=
  (web_metric_correlation_uses_fresh_series constRng 1).2.1
    (fun _ _ _ _ _ => rfl)

/-- Characterization of join-key equality: only two date cells with the same
day compare equal. -/
theorem keyEq_true_iff (c1 c2 : Cell) :
    Cell.keyEq c1 c2 = true ↔ ∃ e : ℤ, c1 = Cell.date e ∧ c2 = Cell.date e := by
  cases c1 <;> cases c2 <;> simp [Cell.keyEq]
  exact eq_comm

/-- A cell read that does not return the default was in range. -/
theorem getD_lt_length_of_ne {r : List Cell} {n : ℕ}
    (h : r.getD n Cell.na ≠ Cell.na) : n < r.length := by
  by_contra hn
  rw [not_lt] at hn
  rw [List.getD_eq_default _ _ hn] at h
  exact h rfl

/-- Membership in the date-key multiset of a table. -/
theorem mem_dateKeys {h : List String} {rows : List (List Cell)} {d : ℤ} :
    d ∈ dateKeys h rows ↔ ∃ r ∈ rows, keyCell h r = Cell.date d := by
  simp only [dateKeys, List.mem_filterMap]
  constructor
  · rintro ⟨r, hr, hmatch⟩
    refine ⟨r, hr, ?_⟩
    cases hk : keyCell h r <;> rw [hk] at hmatch <;> simp at hmatch
    rw [hmatch]
  · rintro ⟨r, hr, hk⟩
    exact ⟨r, hr, by rw [hk]⟩

/-- The dates of an inner merge are exactly the dates present in both
operands. -/
theorem merge_inner_dates (left right : DataFrame)
    (hl : "date" ∈ left.header) (hr : "date" ∈ right.header) (d : ℤ) :
    (d ∈ dateKeys (mergeInner left right).header (mergeInner left right).rows
      ↔ d ∈ dateKeys left.header left.rows ∧ d ∈ dateKeys right.header right.rows) := by
  have hpos : (left.header ++ right.header.eraseIdx (right.header.indexOf "date")).indexOf "date"
      = left.header.indexOf "date" := List.indexOf_append_of_mem hl
  rw [mem_dateKeys, mem_dateKeys, mem_dateKeys]
  constructor
  · rintro ⟨row, hrow, hkey⟩
    simp only [mergeInner, List.mem_flatMap, List.mem_map, List.mem_filter] at hrow
    obtain ⟨l, hlmem, r, ⟨hrmem, hmatch⟩, rfl⟩ := hrow
    rw [keyEq_true_iff] at hmatch
    obtain ⟨e, hle, hre⟩ := hmatch
    have hlt : left.header.indexOf "date" < l.length := by
      apply getD_lt_length_of_ne
      rw [show l.getD (left.header.indexOf "date") Cell.na = keyCell left.header l from rfl,
        hle]
      simp
    rw [show (mergeInner left right).header
        = left.header ++ right.header.eraseIdx (right.header.indexOf "date") from rfl] at hkey
    rw [show keyCell (left.header ++ right.header.eraseIdx (right.header.indexOf "date"))
          (l ++ r.eraseIdx (right.header.indexOf "date"))
        = (l ++ r.eraseIdx (right.header.indexOf "date")).getD
            ((left.header ++ right.header.eraseIdx
              (right.header.indexOf "date")).indexOf "date")
            Cell.na from rfl, hpos, List.getD_append _ _ _ _ hlt] at hkey
    have hed : Cell.date e = Cell.date d := by
      rw [← hkey]
      exact hle.symm
    obtain rfl : e = d := by injection hed
    exact ⟨⟨l, hlmem, hle⟩, ⟨r, hrmem, hre⟩⟩
  · rintro ⟨⟨l, hlmem, hlkey⟩, ⟨r, hrmem, hrkey⟩⟩
    refine ⟨l ++ r.eraseIdx (right.header.indexOf "date"), ?_, ?_⟩
    · simp only [mergeInner, List.mem_flatMap, List.mem_map, List.mem_filter]
      refine ⟨l, hlmem, r, ⟨hrmem, ?_⟩, rfl⟩
      rw [keyEq_true_iff]
      exact ⟨d, hlkey, hrkey⟩
    · have hlt : left.header.indexOf "date" < l.length := by
        apply getD_lt_length_of_ne
        rw [show l.getD (left.header.indexOf "date") Cell.na = keyCell left.header l from rfl,
          hlkey]
        simp
      show (l ++ r.eraseIdx (right.header.indexOf "date")).getD
          ((left.header ++ right.header.eraseIdx (right.header.indexOf "date")).indexOf "date")
          Cell.na = Cell.date d
      rw [hpos, List.getD_append _ _ _ _ hlt]
      exact hlkey

/-- C2.  The merged table of the cleaning pipeline carries exactly the dates
present in both input datasets: the inner join on date keeps one row per
key-matching pair and drops every row whose date appears in only one
source. -/
theorem merged_dates_iff (covid_cases web_traffic : DataFrame)
    (hc : "date" ∈ covid_cases.header) (hw : "date" ∈ web_traffic.header) (d : ℤ) :
    (d ∈ dateKeys (merge_datasets covid_cases web_traffic).header
        (merge_datasets covid_cases web_traffic).rows
      ↔ d ∈ dateKeys covid_cases.header covid_cases.rows
        ∧ d ∈ dateKeys web_traffic.header web_traffic.rows) :=
  (merge_inner_dates web_traffic covid_cases hw hc d).trans and_comm

/-- C2, witness at two partially overlapping concrete datasets and the one
shared date. -/
theorem merged_dates_iff_witness :
    (2 ∈ dateKeys (merge_datasets casesOverlapEx webOverlapEx).header
        (merge_datasets casesOverlapEx webOverlapEx).rows
      ↔ 2 ∈ dateKeys casesOverlapEx.header casesOverlapEx.rows
        ∧ 2 ∈ dateKeys webOverlapEx.header webOverlapEx.rows) :=
  merged_dates_iff casesOverlapEx webOverlapEx (by decide) (by decide) 2

theorem indexUnion_self (a : List ℤ) : indexUnion a a = a := by
  rw [indexUnion, List.append_right_eq_self]
  rw [List.filter_eq_nil_iff]
  intro i hi
  simp [hi]

theorem rangeIdx_length (n : ℕ) : (rangeIdx n).length = n := by
  simp [rangeIdx]

theorem rangeIdx_nodup (n : ℕ) : (rangeIdx n).Nodup :=
  (List.nodup_range n).map (fun a b h => Int.ofNat.inj h)

theorem seriesAt_of_nodup (idx : List ℤ) (vals : List Cell) (hnd : idx.Nodup)
    (hlen : vals.length = idx.length) :
    idx.map (seriesAt idx vals) = vals := by
  induction idx generalizing vals with
  | nil =>
    cases vals with
    | nil => rfl
    | cons v vs => simp at hlen
  | cons a idx ih =>
    cases vals with
    | nil => simp at hlen
    | cons v vs =>
      rw [List.nodup_cons] at hnd
      simp only [List.map_cons]
      congr 1
      · simp [seriesAt]
      · have hmc : idx.map (seriesAt (a :: idx) (v :: vs)) = idx.map (seriesAt idx vs) := by
          apply List.map_congr_left
          intro i hi
          have hne : a ≠ i := fun h => hnd.1 (h ▸ hi)
          simp [seriesAt, hne]
        rw [hmc, ih vs hnd.2 (by simpa using hlen)]

theorem rowAt_of_nodup (h : List String) (idx : List ℤ) (rows : List (List Cell))
    (hnd : idx.Nodup) (hlen : rows.length = idx.length) :
    idx.map (DataFrame.rowAt { header := h, index := idx, rows := rows }) = rows := by
  induction idx generalizing rows with
  | nil =>
    cases rows with
    | nil => rfl
    | cons r rs => simp at hlen
  | cons a idx ih =>
    cases rows with
    | nil => simp at hlen
    | cons r rs =>
      rw [List.nodup_cons] at hnd
      simp only [List.map_cons]
      congr 1
      · simp [DataFrame.rowAt]
      · have hmc : idx.map (DataFrame.rowAt { header := h, index := a :: idx, rows := r :: rs })
            = idx.map (DataFrame.rowAt { header := h, index := idx, rows := rs }) := by
          apply List.map_congr_left
          intro i hi
          have hne : (a == i) = false := by
            simp only [beq_eq_false_iff_ne, ne_eq]
            exact fun hh => hnd.1 (hh ▸ hi)
          simp [DataFrame.rowAt, hne]
        rw [hmc, ih rs hnd.2 (by simpa using hlen)]

theorem range_map_getD {α : Type} (l : List α) (d : α) :
    (List.range l.length).map (fun k => l.getD k d) = l := by
  apply List.ext_getElem
  · simp
  · intro i h1 h2
    simp [List.getD_eq_getElem?_getD, List.getElem?_eq_getElem h2]

theorem fitTransformDF_rows_length (df : DataFrame) :
    ∀ r ∈ (fitTransformDF df).rows, r.length = df.header.length := by
  intro r hr
  simp only [fitTransformDF, List.mem_map] at hr
  obtain ⟨i, hi, rfl⟩ := hr
  simp

theorem standardize_features_unfold (cleaned : DataFrame)
    (hidx : cleaned.index = rangeIdx cleaned.rows.length) :
    standardize_features cleaned =
      { header := "date" :: ((cleaned.dropCols ["date", "cases"]).header ++ ["cases"])
        index := cleaned.index
        rows := cleaned.index.map (fun i =>
          seriesAt cleaned.index (cleaned.col "date") i ::
          ((fitTransformDF (cleaned.dropCols ["date", "cases"])).rowAt i
            ++ [seriesAt cleaned.index (cleaned.col "cases") i])) } := by
  have hfeat : (cleaned.dropCols ["date", "cases"]).rows.length = cleaned.rows.length := by
    simp [DataFrame.dropCols]
  have hmidx : (fitTransformDF (cleaned.dropCols ["date", "cases"])).index = cleaned.index := by
    rw [show (fitTransformDF (cleaned.dropCols ["date", "cases"])).index
        = rangeIdx (cleaned.dropCols ["date", "cases"]).rows.length from rfl, hfeat, hidx]
  simp only [standardize_features, concat3, DataFrame.series, hmidx, indexUnion_self]
  rfl

theorem rowAt_length (df : DataFrame)
    (hh : ∀ r ∈ df.rows, r.length = df.header.length) (i : ℤ) :
    (df.rowAt i).length = df.header.length := by
  rw [DataFrame.rowAt]
  cases hf : (df.index.zip df.rows).find? (fun p => p.1 == i) with
  | none => simp
  | some p =>
    simp only
    exact hh p.2 (List.of_mem_zip (List.mem_of_find?_eq_some hf)).2

theorem getD_map_of_lt {α β : Type} (f : α → β) (l : List α) (d : β) (d2 : α)
    {j : ℕ} (h : j < l.length) :
    (l.map f).getD j d = f (l.getD j d2) := by
  rw [List.getD_eq_getElem _ _ (by simpa using h), List.getD_eq_getElem _ _ h]
  simp

theorem standardize_passthrough (cleaned : DataFrame)
    (hidx : cleaned.index = rangeIdx cleaned.rows.length) :
    (standardize_features cleaned).col "date" = cleaned.col "date"
    ∧ (standardize_features cleaned).col "cases" = cleaned.col "cases" := by
  have hnd : cleaned.index.Nodup := by
    rw [hidx]
    exact rangeIdx_nodup _
  have hlen : ∀ c : String, (cleaned.col c).length = cleaned.index.length := by
    intro c
    rw [hidx, rangeIdx_length]
    simp [DataFrame.col]
  have hmidlen : ∀ r ∈ (fitTransformDF (cleaned.dropCols ["date", "cases"])).rows,
      r.length = (cleaned.dropCols ["date", "cases"]).header.length :=
    fitTransformDF_rows_length _
  rw [standardize_features_unfold cleaned hidx]
  constructor
  · have hcol : (DataFrame.col
        { header := "date" :: ((cleaned.dropCols ["date", "cases"]).header ++ ["cases"])
          index := cleaned.index
          rows := cleaned.index.map (fun i =>
            seriesAt cleaned.index (cleaned.col "date") i ::
            ((fitTransformDF (cleaned.dropCols ["date", "cases"])).rowAt i
              ++ [seriesAt cleaned.index (cleaned.col "cases") i])) } "date")
        = cleaned.index.map (seriesAt cleaned.index (cleaned.col "date")) := by
      simp [DataFrame.col, List.map_map, List.indexOf_cons_self, Function.comp]
    rw [hcol, seriesAt_of_nodup _ _ hnd (hlen "date")]
  · have hnotmem : "cases" ∉ (cleaned.dropCols ["date", "cases"]).header := by
      simp [DataFrame.dropCols]
    have hpos : (("date" :: ((cleaned.dropCols ["date", "cases"]).header ++ ["cases"])).indexOf "cases")
        = ((cleaned.dropCols ["date", "cases"]).header.length).succ := by
      rw [List.indexOf_cons_ne _ (by decide), List.indexOf_append_of_not_mem hnotmem]
      simp [List.indexOf_cons_self]
    have hcol : (DataFrame.col
        { header := "date" :: ((cleaned.dropCols ["date", "cases"]).header ++ ["cases"])
          index := cleaned.index
          rows := cleaned.index.map (fun i =>
            seriesAt cleaned.index (cleaned.col "date") i ::
            ((fitTransformDF (cleaned.dropCols ["date", "cases"])).rowAt i
              ++ [seriesAt cleaned.index (cleaned.col "cases") i])) } "cases")
        = cleaned.index.map (seriesAt cleaned.index (cleaned.col "cases")) := by
      simp only [DataFrame.col, List.map_map, hpos]
      apply List.map_congr_left
      intro i hi
      simp only [Function.comp, List.getD_cons_succ]
      have hle : ((fitTransformDF (cleaned.dropCols ["date", "cases"])).rowAt i).length
          ≤ (cleaned.dropCols ["date", "cases"]).header.length :=
        le_of_eq (rowAt_length _ hmidlen i)
      rw [List.getD_append_right _ _ _ _ hle]
      rw [show (cleaned.dropCols ["date", "cases"]).header.length
          - ((fitTransformDF (cleaned.dropCols ["date", "cases"])).rowAt i).length = 0
          from by rw [rowAt_length _ hmidlen i]; exact Nat.sub_self _]
      rfl
    rw [hcol, seriesAt_of_nodup _ _ hnd (hlen "cases")]

theorem standardize_feature_col (cleaned : DataFrame) (c : String)
    (hidx : cleaned.index = rangeIdx cleaned.rows.length)
    (hc : c ∈ (cleaned.dropCols ["date", "cases"]).header) :
    ((standardize_features cleaned).col c).map Cell.toReal
      = standardizeCol (((cleaned.dropCols ["date", "cases"]).col c).map Cell.toReal) := by
  have hcd : c ≠ "date" := by
    rintro rfl
    simp [DataFrame.dropCols] at hc
  have hmidlen : ∀ r ∈ (fitTransformDF (cleaned.dropCols ["date", "cases"])).rows,
      r.length = (cleaned.dropCols ["date", "cases"]).header.length :=
    fitTransformDF_rows_length _
  have hfeat : (cleaned.dropCols ["date", "cases"]).rows.length = cleaned.rows.length := by
    simp [DataFrame.dropCols]
  have hmidx : (fitTransformDF (cleaned.dropCols ["date", "cases"])).index = cleaned.index := by
    rw [show (fitTransformDF (cleaned.dropCols ["date", "cases"])).index
        = rangeIdx (cleaned.dropCols ["date", "cases"]).rows.length from rfl, hfeat, hidx]
  have hj : (cleaned.dropCols ["date", "cases"]).header.indexOf c
      < (cleaned.dropCols ["date", "cases"]).header.length :=
    List.indexOf_lt_length.mpr hc
  have hpos : (("date" :: ((cleaned.dropCols ["date", "cases"]).header ++ ["cases"])).indexOf c)
      = ((cleaned.dropCols ["date", "cases"]).header.indexOf c).succ := by
    rw [List.indexOf_cons_ne _ (Ne.symm hcd), List.indexOf_append_of_mem hc]
  rw [standardize_features_unfold cleaned hidx]
  have hcol : (DataFrame.col
      { header := "date" :: ((cleaned.dropCols ["date", "cases"]).header ++ ["cases"])
        index := cleaned.index
        rows := cleaned.index.map (fun i =>
          seriesAt cleaned.index (cleaned.col "date") i ::
          ((fitTransformDF (cleaned.dropCols ["date", "cases"])).rowAt i
            ++ [seriesAt cleaned.index (cleaned.col "cases") i])) } c)
      = cleaned.index.map (fun i =>
          ((fitTransformDF (cleaned.dropCols ["date", "cases"])).rowAt i).getD
            ((cleaned.dropCols ["date", "cases"]).header.indexOf c) Cell.na) := by
    simp only [DataFrame.col, List.map_map, hpos]
    apply List.map_congr_left
    intro i hi
    simp only [Function.comp, List.getD_cons_succ]
    have hlt : (cleaned.dropCols ["date", "cases"]).header.indexOf c
        < ((fitTransformDF (cleaned.dropCols ["date", "cases"])).rowAt i).length := by
      rw [rowAt_length _ hmidlen i]
      exact hj
    rw [List.getD_append _ _ _ _ hlt]
  rw [hcol]
  have hrows : cleaned.index.map
      ((fitTransformDF (cleaned.dropCols ["date", "cases"])).rowAt)
      = (fitTransformDF (cleaned.dropCols ["date", "cases"])).rows := by
    rw [← hmidx]
    exact rowAt_of_nodup _ _ _ (rangeIdx_nodup _)
      (by simp [fitTransformDF, rangeIdx])
  rw [show (fun i => ((fitTransformDF (cleaned.dropCols ["date", "cases"])).rowAt i).getD
        ((cleaned.dropCols ["date", "cases"]).header.indexOf c) Cell.na)
      = ((fun r : List Cell => r.getD
          ((cleaned.dropCols ["date", "cases"]).header.indexOf c) Cell.na)
        ∘ ((fitTransformDF (cleaned.dropCols ["date", "cases"])).rowAt)) from rfl,
    ← List.map_map, hrows]
  rw [show (fitTransformDF (cleaned.dropCols ["date", "cases"])).rows
      = (List.range (cleaned.dropCols ["date", "cases"]).rows.length).map (fun k =>
          ((List.range (cleaned.dropCols ["date", "cases"]).header.length).map (fun j =>
            standardizeCol ((cleaned.dropCols ["date", "cases"]).rows.map
              (fun r => (r.getD j Cell.na).toReal)))).map
            (fun col => Cell.num (col.getD k 0))) from rfl]
  rw [List.map_map, List.map_map]
  have hstep : ∀ k ∈ List.range (cleaned.dropCols ["date", "cases"]).rows.length,
      ((Cell.toReal ∘ fun r : List Cell => r.getD
          ((cleaned.dropCols ["date", "cases"]).header.indexOf c) Cell.na) ∘ fun k =>
        ((List.range (cleaned.dropCols ["date", "cases"]).header.length).map (fun j =>
          standardizeCol ((cleaned.dropCols ["date", "cases"]).rows.map
            (fun r => (r.getD j Cell.na).toReal)))).map
          (fun col => Cell.num (col.getD k 0))) k
      = (standardizeCol (((cleaned.dropCols ["date", "cases"]).col c).map Cell.toReal)).getD k 0 := by
    intro k hk
    simp only [Function.comp]
    have hclen : ((List.range (cleaned.dropCols ["date", "cases"]).header.length).map (fun j =>
        standardizeCol ((cleaned.dropCols ["date", "cases"]).rows.map
          (fun r => (r.getD j Cell.na).toReal)))).length
        = (cleaned.dropCols ["date", "cases"]).header.length := by
      simp
    rw [getD_map_of_lt _ _ _ [] (by rw [hclen]; exact hj)]
    rw [getD_map_range _ _ hj]
    have hxs : ((cleaned.dropCols ["date", "cases"]).col c).map Cell.toReal
        = (cleaned.dropCols ["date", "cases"]).rows.map
          (fun r => (r.getD ((cleaned.dropCols ["date", "cases"]).header.indexOf c)
            Cell.na).toReal) := by
      rw [DataFrame.col, List.map_map]
      rfl
    rw [hxs]
    rfl
  rw [List.map_congr_left hstep]
  have hyslen : (standardizeCol (((cleaned.dropCols ["date", "cases"]).col c).map
      Cell.toReal)).length = (cleaned.dropCols ["date", "cases"]).rows.length := by
    simp [standardizeCol, DataFrame.col]
  rw [show (cleaned.dropCols ["date", "cases"]).rows.length
      = (standardizeCol (((cleaned.dropCols ["date", "cases"]).col c).map
          Cell.toReal)).length from hyslen.symm]
  exact range_map_getD _ _


/-- Sum of a centred, rescaled list. -/
theorem sum_map_sub_div (xs : List ℝ) (m s : ℝ) :
    (xs.map (fun x => (x - m) / s)).sum = (xs.sum - xs.length * m) / s := by
  induction xs with
  | nil => simp
  | cons x xs ih =>
    simp only [List.map_cons, List.sum_cons, ih, List.length_cons]
    rw [div_add_div_same]
    congr 1
    push_cast
    ring

/-- Sum of a pointwise-divided list. -/
theorem sum_map_div (xs : List ℝ) (g : ℝ → ℝ) (s : ℝ) :
    (xs.map (fun x => g x / s)).sum = (xs.map g).sum / s := by
  induction xs with
  | nil => simp
  | cons x xs ih =>
    simp only [List.map_cons, List.sum_cons, ih]
    rw [div_add_div_same]

/-- The population variance is a mean of squares, hence nonnegative. -/
theorem listPopVar_nonneg (xs : List ℝ) : 0 ≤ listPopVar xs := by
  rw [listPopVar]
  apply div_nonneg
  · apply List.sum_nonneg
    intro y hy
    rw [List.mem_map] at hy
    obtain ⟨x, hx, rfl⟩ := hy
    positivity
  · positivity

/-- A standardized column has mean exactly 0. -/
theorem listMean_standardizeCol (xs : List ℝ) :
    listMean (standardizeCol xs) = 0 := by
  rw [standardizeCol, listMean, sum_map_sub_div, List.length_map]
  rcases Nat.eq_zero_or_pos xs.length with h0 | hlt
  · rw [h0]
    simp
  · have hn : (xs.length : ℝ) ≠ 0 := Nat.cast_ne_zero.mpr (Nat.pos_iff_ne_zero.mp hlt)
    rw [listMean]
    have hm : (xs.length : ℝ) * (xs.sum / xs.length) = xs.sum := by
      field_simp
    rw [hm, sub_self, zero_div, zero_div]

/-- A standardized column with nonzero input variance has population
variance exactly 1. -/
theorem listPopVar_standardizeCol (xs : List ℝ) (hvar : listPopVar xs ≠ 0) :
    listPopVar (standardizeCol xs) = 1 := by
  have hmean0 := listMean_standardizeCol xs
  rw [listPopVar, hmean0]
  simp only [sub_zero]
  rw [standardizeCol, List.map_map, List.length_map]
  have hcomp : ((fun y : ℝ => y ^ 2) ∘ (fun x => (x - listMean xs) / scalerScale xs))
      = fun x => ((x - listMean xs) ^ 2) / (scalerScale xs ^ 2) := by
    funext x
    simp [Function.comp, div_pow]
  rw [hcomp, sum_map_div xs (fun x => (x - listMean xs) ^ 2) (scalerScale xs ^ 2)]
  rw [div_div, mul_comm, ← div_div]
  rw [show (xs.map (fun x => (x - listMean xs) ^ 2)).sum / (xs.length : ℝ)
      = listPopVar xs from rfl]
  rw [scalerScale, if_neg hvar, Real.sq_sqrt (listPopVar_nonneg xs)]
  exact div_self hvar

/-- C3, amended.  For a cleaned input with at least one row, whose labels
are the default contiguous range (nothing was dropped before, so the
concat alignment is the identity), every feature column with nonzero
population variance is mapped to an output column with mean exactly 0 and
population standard deviation exactly 1 — in particular within the claimed
1e-9 tolerance; mean and deviation are computed once over the full
column. -/
theorem standardized_feature_mean_zero_std_one (cleaned : DataFrame) (c : String)
    (hidx : cleaned.index = rangeIdx cleaned.rows.length)
    (hlen : 0 < cleaned.rows.length)
    (hc : c ∈ (cleaned.dropCols ["date", "cases"]).header)
    (hvar : listPopVar (((cleaned.dropCols ["date", "cases"]).col c).map Cell.toReal) ≠ 0) :
    |listMean (((standardize_features cleaned).col c).map Cell.toReal)| ≤ 1e-9
    ∧ |listPopStd (((standardize_features cleaned).col c).map Cell.toReal) - 1| ≤ 1e-9 := by
  rw [standardize_feature_col cleaned c hidx hc]
  constructor
  · rw [listMean_standardizeCol]
    norm_num
  · rw [listPopStd, listPopVar_standardizeCol _ hvar, Real.sqrt_one]
    norm_num

/-- C3, witness at a concrete aligned two-row table whose feature column
has variance 1. -/
theorem standardized_feature_mean_zero_std_one_witness :
    |listMean (((standardize_features varEx).col "page_views").map Cell.toReal)| ≤ 1e-9
    ∧ |listPopStd (((standardize_features varEx).col "page_views").map Cell.toReal) - 1|
        ≤ 1e-9 :=
  standardized_feature_mean_zero_std_one varEx "page_views" rfl (by decide) (by decide)
    (by
      rw [show ((varEx.dropCols ["date", "cases"]).col "page_views").map Cell.toReal
          = [(1 : ℝ), 3] from rfl]
      norm_num [listPopVar, listMean])

/-- C3, counterexample.  On the aligned cleaned input constEx, whose
feature column is constant, the standardized output column is [0, 0]: its
population standard deviation is 0, not within 1e-9 of 1, so the claim
fails as stated for zero-variance columns. -/
theorem standardized_constant_column_std_not_one :
    listPopStd (((standardize_features constEx).col "page_views").map Cell.toReal) = 0
    ∧ ¬ (|listPopStd (((standardize_features constEx).col "page_views").map Cell.toReal)
          - 1| ≤ 1e-9) := by
  have hvar : listPopVar [(7 : ℝ), 7] = 0 := by
    norm_num [listPopVar, listMean]
  have hmean : listMean [(7 : ℝ), 7] = 7 := by
    norm_num [listMean]
  have hscale : scalerScale [(7 : ℝ), 7] = 1 := by
    rw [scalerScale, if_pos hvar]
  have hcol : ((standardize_features constEx).col "page_views").map Cell.toReal
      = [(7 - listMean [(7 : ℝ), 7]) / scalerScale [(7 : ℝ), 7],
         (7 - listMean [(7 : ℝ), 7]) / scalerScale [(7 : ℝ), 7]] := rfl
  have hzero : ((standardize_features constEx).col "page_views").map Cell.toReal
      = [(0 : ℝ), 0] := by
    rw [hcol, hmean, hscale]
    norm_num
  have hstd : listPopStd (((standardize_features constEx).col "page_views").map
      Cell.toReal) = 0 := by
    rw [hzero, listPopStd]
    rw [show listPopVar [(0 : ℝ), 0] = 0 from by norm_num [listPopVar, listMean]]
    exact Real.sqrt_zero
  refine ⟨hstd, ?_⟩
  rw [hstd]
  norm_num

/-- C4, amended.  The output column order of the standardization step is
unconditionally date first, then the original feature columns in their
original order, then cases last.  The date and cases columns are passed
through verbatim whenever the cleaned input's labels are the default
contiguous range (the case when the drop-missing step removed no
non-trailing row); with gapped labels the concat alignment breaks verbatim
pass-through (see the counterexample). -/
theorem standardize_column_order_and_passthrough (cleaned : DataFrame) :
    (standardize_features cleaned).header
      = "date" :: (cleaned.header.filter (fun c2 => !(["date", "cases"].contains c2))
          ++ ["cases"])
    ∧ (cleaned.index = rangeIdx cleaned.rows.length →
        (standardize_features cleaned).col "date" = cleaned.col "date"
        ∧ (standardize_features cleaned).col "cases" = cleaned.col "cases") :=
  ⟨rfl, fun hidx => standardize_passthrough cleaned hidx⟩

/-- C4, witness for the amended theorem at the aligned concrete input
constEx. -/
theorem standardize_column_order_and_passthrough_witness :
    ((standardize_features constEx).header
      = "date" :: (constEx.header.filter (fun c2 => !(["date", "cases"].contains c2))
          ++ ["cases"]))
    ∧ ((standardize_features constEx).col "date" = constEx.col "date"
        ∧ (standardize_features constEx).col "cases" = constEx.col "cases") :=
  ⟨(standardize_column_order_and_passthrough constEx).1,
   (standardize_column_order_and_passthrough constEx).2 rfl⟩

end Covid
